import Mathlib

/-
  Shallow embedding of the landcheck-api survey-traverse and rendering core.

  Coordinates arriving from the collaborators are Python floats; every float
  is a rational number, so planar coordinates are embedded as ℚ × ℚ and the
  arithmetic the code performs on them (+, -, *, /) is carried out exactly.
  The transcendental primitives `math.atan2`, `math.degrees`, `math.sqrt`
  (via `math.hypot`) are embedded over ℝ: `atan2 y x` is the argument of the
  complex number x + y·i (the mathematical atan2), and `%` on nonnegative
  reals is the floor-based remainder `mod360`.  Python strings are embedded
  as `List Char`.

  File layout: all definitions first, then all theorems.
-/

namespace LandCheck

/-- math.atan2(y, x): the angle of the point (x, y), in (-π, π]. -/
noncomputable def atan2 (y x : ℝ) : ℝ := Complex.arg ⟨x, y⟩

/-- math.degrees: radians to degrees. -/
noncomputable def degrees (r : ℝ) : ℝ := r * (180 / Real.pi)

/-- Python `v % 360.0` on reals (floor-convention remainder, result in [0,360)). -/
noncomputable def mod360 (x : ℝ) : ℝ := x - 360 * ⌊x / 360⌋

/-- `round(x, 3)` on a rational: round to 3 decimal places.  CPython rounds
half-to-even while Mathlib `round` is half-up; the two agree except on exact
multiples of 0.0005, and no claim depends on that boundary. -/
def round3 (q : ℚ) : ℚ := (round (q * 1000) : ℚ) / 1000

/-- `round(x, 3)` applied to a real intermediate (the edge distance). -/
noncomputable def round3R (x : ℝ) : ℝ := ((round (x * 1000) : ℤ) : ℝ) / 1000

/-- A bounding box as returned by shapely `geom.bounds`:
(minx, miny, maxx, maxy). -/
structure Bounds where
  minx : ℚ
  miny : ℚ
  maxx : ℚ
  maxy : ℚ

/-- An axes view extent: the values of `ax.set_xlim` / `ax.set_ylim`. -/
structure Extent where
  x0 : ℚ
  x1 : ℚ
  y0 : ℚ
  y1 : ℚ

/-- The geometry bounds fit inside the view extent (boundary not cropped). -/
def Extent.covers (e : Extent) (b : Bounds) : Prop :=
  e.x0 ≤ b.minx ∧ b.maxx ≤ e.x1 ∧ e.y0 ≤ b.miny ∧ b.maxy ≤ e.y1

instance (e : Extent) (b : Bounds) : Decidable (e.covers b) := by
  unfold Extent.covers
  infer_instance

/-- Python `int(s)` on a string with optional sign and decimal digits.
CPython additionally tolerates surrounding whitespace and single embedded
underscores; neither occurs after the callers strip spaces, and no claim
depends on them. -/
def pythonDigits (cs : List Char) : Option ℕ :=
  if cs = [] then none
  else if cs.all Char.isDigit then
    some (cs.foldl (fun a c => a * 10 + (c.toNat - 48)) 0)
  else none

/-- Python `int(s)`: optional leading sign, then digits; raises (None) otherwise. -/
def pythonInt (cs : List Char) : Option ℤ :=
  match cs with
  | '+' :: rest => (pythonDigits rest).map Int.ofNat
  | '-' :: rest => (pythonDigits rest).map (fun n => -(n : ℤ))
  | _ => (pythonDigits cs).map Int.ofNat

/-- Python `s.split(":")`. -/
def splitColon : List Char → List (List Char)
  | [] => [[]]
  | c :: rest =>
    let r := splitColon rest
    if c = ':' then [] :: r
    else
      match r with
      | [] => [[c]]
      | h :: t => (c :: h) :: t

/-- Python `s.strip()`: remove leading and trailing whitespace. -/
def pyStrip (cs : List Char) : List Char :=
  ((cs.dropWhile Char.isWhitespace).reverse.dropWhile Char.isWhitespace).reverse

/-- Python `s.replace(" ", "")`: remove every space character. -/
def removeSpaces (cs : List Char) : List Char :=
  cs.filter (fun c => c ≠ ' ')

/-- `round(x, 2)` on a rational (the report router's area rounding); same
half-up versus half-even caveat as round3. -/
def round2 (q : ℚ) : ℚ := (round (q * 100) : ℚ) / 100

/-- shapely `p1.distance(p2)`: planar Euclidean distance. -/
noncomputable def pointDistance (p1 p2 : ℚ × ℚ) : ℝ :=
  Real.sqrt (((p2.1 - p1.1 : ℚ) : ℝ) ^ 2 + ((p2.2 - p1.2 : ℚ) : ℝ) ^ 2)

/-- shapely `poly.area` of the exterior ring: half the absolute shoelace
sum over consecutive vertex pairs. -/
def ringArea (coords : List (ℚ × ℚ)) : ℚ :=
  |((coords.zip coords.tail).map (fun e => e.1.1 * e.2.2 - e.2.1 * e.1.2)).sum| / 2

/-- What a rendered text item shows, up to numeric formatting: padding and
fixed decimal places of the format strings are elided, and the payload
carries the unformatted numbers those format strings print.  `area` is the
payload of a displayed area figure, so the development can state which
exporters display an area value and which display none. -/
inductive TextPayload where
  | plain
  | coordLabel (value : ℤ)
  | bearingDistance (bearing dist : ℝ)
  | plotLabel
  | area (value : ℚ)

/-- Whether a text payload is an area figure. -/
def TextPayload.isArea : TextPayload → Bool
  | .area _ => true
  | _ => false

end LandCheck

namespace BackComputation

open LandCheck

/-- src/app/utils/back_computation.py, `bearing_deg`:
`(math.degrees(math.atan2(dx, dy)) + 360) % 360` with dx = p2.x - p1.x,
dy = p2.y - p1.y. -/
noncomputable def bearing_deg (p1 p2 : ℚ × ℚ) : ℝ :=
  mod360 (degrees (atan2 ((p2.1 : ℝ) - (p1.1 : ℝ)) ((p2.2 : ℝ) - (p1.2 : ℝ))) + 360)

/-- The local `bb = (fb + 180) % 360` computed for each edge
(back_computation.py line 46). -/
noncomputable def edge_bb (p1 p2 : ℚ × ℚ) : ℝ := mod360 (bearing_deg p1 p2 + 180)

/-- `deg_to_dms` in back_computation.py, as the numeric degree/minute/second
triple; the code then formats the triple as the padded string
`f"{deg:03d}°{minute:02d}'{sec:05.2f}\""`, pure presentation which no claim
inspects.  Python `int()` truncates toward zero; the argument is first
normalized by `% 360` so it is nonnegative and truncation equals floor. -/
noncomputable def deg_to_dms (angle : ℝ) : ℤ × ℤ × ℝ :=
  let a := mod360 angle
  let deg := ⌊a⌋
  let min_float := (a - deg) * 60
  let minute := ⌊min_float⌋
  (deg, minute, (min_float - minute) * 60)

/-- One row of the traverse table built in `compute_back_computation`
(the dict appended at lines 51-61). `src`/`dst` are the Python keys
"from"/"to" (Lean keywords). -/
structure TraverseRow where
  src : String
  dst : String
  E : ℚ
  N : ℚ
  dE : ℚ
  dN : ℚ
  distance : ℝ
  fb : ℤ × ℤ × ℝ
  bb : ℤ × ℤ × ℝ

/-- The consecutive vertex pairs (p_i, p_(i+1)) walked by
`for i in range(len(coords) - 1)`. -/
def edges (coords : List (ℚ × ℚ)) : List ((ℚ × ℚ) × (ℚ × ℚ)) :=
  coords.zip coords.tail

/-- `list("ABCDEFGHIJKLMNOPQRSTUVWXYZ")`, the default station labels. -/
def default_stations : List String :=
  ["A", "B", "C", "D", "E", "F", "G", "H", "I", "J", "K", "L", "M",
   "N", "O", "P", "Q", "R", "S", "T", "U", "V", "W", "X", "Y", "Z"]

/-- The row built for edge i; `stations[i % len(stations)]` is always in
range since `i % len < len`, so the `getD` default is never consulted. -/
noncomputable def mkRow (stations : List String) (i : ℕ) (p1 p2 : ℚ × ℚ) :
    TraverseRow :=
  let de := p2.1 - p1.1
  let dn := p2.2 - p1.2
  { src := stations.getD (i % stations.length) ""
    dst := stations.getD ((i + 1) % stations.length) ""
    E := round3 p1.1
    N := round3 p1.2
    dE := round3 de
    dN := round3 dn
    distance := round3R (Real.sqrt (((de : ℝ)) ^ 2 + ((dn : ℝ)) ^ 2))
    fb := deg_to_dms (bearing_deg p1 p2)
    bb := deg_to_dms (edge_bb p1 p2) }

/-- src/app/utils/back_computation.py, `compute_back_computation`:
walks the exterior-ring coordinate list edge by edge, producing the row list
and the rounded closure sums Σ ΔE, Σ ΔN.  The Python `station_names if
station_names else default_stations` treats an empty list as falsy. -/
noncomputable def compute_back_computation
    (coords : List (ℚ × ℚ)) (station_names : List String) :
    List TraverseRow × ℚ × ℚ :=
  let stations := if station_names.isEmpty then default_stations else station_names
  let es := edges coords
  (es.mapIdx (fun i e => mkRow stations i e.1 e.2),
   round3 ((es.map (fun e => e.2.1 - e.1.1)).sum),
   round3 ((es.map (fun e => e.2.2 - e.1.2)).sum))

end BackComputation

namespace MapRendererLayout

open LandCheck

/-- src/app/utils/map_renderer_layout.py, `calculate_bearing_deg`:
textually identical to back_computation.bearing_deg. -/
noncomputable def calculate_bearing_deg (p1 p2 : ℚ × ℚ) : ℝ :=
  mod360 (degrees (atan2 ((p2.1 : ℝ) - (p1.1 : ℝ)) ((p2.2 : ℝ) - (p1.2 : ℝ))) + 360)

/-- The candidate multipliers `[0.02, 0.05, 0.1, 0.2, 0.5, 1.0]` shared by
every nice_grid_step variant. -/
def grid_multipliers : List ℚ := [2/100, 5/100, 1/10, 2/10, 5/10, 1]

/-- `10 ** math.floor(math.log10(span))` for span > 0: `Int.log 10 span`
is exactly ⌊log10 span⌋ on positive rationals. -/
def pow10_floor_log (span : ℚ) : ℚ := (10 : ℚ) ^ (Int.log 10 span)

/-- `steps[np.argmin(np.abs(steps - target))]`: the candidate closest to
target, first one on ties (np.argmin keeps the first minimal index). -/
def closest_step (target : ℚ) : List ℚ → ℚ
  | [] => 0
  | s :: rest => rest.foldl (fun best c => if |c - target| < |best - target| then c else best) s

/-- map_renderer_layout.py `nice_grid_step`: candidate closest to span/6. -/
def nice_grid_step (span : ℚ) : ℚ :=
  if span ≤ 0 then 100
  else
    let base := pow10_floor_log span
    closest_step (span / 6) (grid_multipliers.map (fun m => m * base))

/-- map_renderer_layout.py `parse_scale_ratio`: strip, drop spaces, split on
":" (the Python unpacking `left, right = s.split(":")` raises unless there
are exactly two parts), `int` the denominator, clamp with `max(1, denom)`;
any exception falls back to 1000. -/
def parse_scale_text (s : List Char) : ℤ :=
  let t := removeSpaces (pyStrip s)
  if t.contains ':' then
    match splitColon t with
    | [_l, r] =>
      match pythonInt r with
      | some d => max 1 d
      | none => 1000
    | _ => 1000
  else
    match pythonInt t with
    | some d => max 1 d
    | none => 1000

/-- map_renderer_layout.py `apply_true_scale`: centers the view on the
midpoint of the geometry bounds; ground width = map_width_in × 0.0254 ×
scale denominator, analogously for height. -/
def apply_true_scale (b : Bounds) (denom : ℤ) (map_width_in map_height_in : ℚ) :
    Extent :=
  let cx := (b.minx + b.maxx) / 2
  let cy := (b.miny + b.maxy) / 2
  let inch_to_m : ℚ := 254 / 10000
  let real_w := map_width_in * inch_to_m * (denom : ℚ)
  let real_h := map_height_in * inch_to_m * (denom : ℚ)
  ⟨cx - real_w / 2, cx + real_w / 2, cy - real_h / 2, cy + real_h / 2⟩

/-- render_plot_map_layout lines 499-511: apply the true-scale window, then
if the plot bounds stick out of it on any side, replace the window by the
plot bounds expanded symmetrically by a 10% margin. -/
def render_extent (b : Bounds) (denom : ℤ) (map_w_in map_h_in : ℚ) : Extent :=
  let e := apply_true_scale b denom map_w_in map_h_in
  if b.minx < e.x0 ∨ b.maxx > e.x1 ∨ b.miny < e.y0 ∨ b.maxy > e.y1 then
    let padx := (b.maxx - b.minx) * (1/10)
    let pady := (b.maxy - b.miny) * (1/10)
    ⟨b.minx - padx, b.maxx + padx, b.miny - pady, b.maxy + pady⟩
  else e

/-- `annotate_vertices` label choice (lines 355-364): resolve the label list
(empty station_names is falsy, so defaults A..Z), then
`labels[i] if i < len(labels) else labels[i % len(labels)]`. -/
def annotate_label (station_names : List String) (i : ℕ) : String :=
  let labels :=
    if station_names.isEmpty then BackComputation.default_stations else station_names
  if i < labels.length then labels.getD i ""
  else labels.getD (i % labels.length) ""

/-- The text angle `math.degrees(math.atan2(p2.y - p1.y, p2.x - p1.x))`
used for the bearing/distance annotation of an edge (map_renderer_layout.py
lines 379-381 and, identically, dwg_exporter.py lines 160-162). -/
noncomputable def edge_text_angle (p1 p2 : ℚ × ℚ) : ℝ :=
  degrees (atan2 ((p2.2 : ℝ) - (p1.2 : ℝ)) ((p2.1 : ℝ) - (p1.1 : ℝ)))

/-- The rotation actually applied to the annotation text:
`if ang < -90 or ang > 90: ang += 180`. -/
noncomputable def edge_text_rot (p1 p2 : ℚ × ℚ) : ℝ :=
  let ang := edge_text_angle p1 p2
  if ang < -90 ∨ 90 < ang then ang + 180 else ang

/-- map_renderer_layout.py `draw_title_block` (lines 106-128): the payloads
of its eight fig.text calls, in order — title, "OF PLOT id", station,
location, lga, state, `AREA = {area_m2/10000:.4f} HA.`, and the scale line.
The area figure carries area_m2; the on-page string divides it by 10000 and
prints hectares to 4 decimals (formatting elided as usual). -/
def draw_title_block (area_m2 : ℚ) : List TextPayload :=
  [.plain, .plotLabel, .plain, .plain, .plain, .plain, .area area_m2, .plain]

/-- render_plot_map_layout passes `area_m2 = float(poly.area)` (line 455) —
the planar shoelace area of the EPSG:3857-projected ring — into the title
block it draws. -/
def render_title_block (coords : List (ℚ × ℚ)) : List TextPayload :=
  draw_title_block (ringArea coords)

end MapRendererLayout

namespace OrthophotoRenderer

open LandCheck

/-- src/app/utils/orthophoto_renderer.py `nice_grid_step`: same
closest-to-span/6 rule as the layout renderer. -/
def nice_grid_step (span : ℚ) : ℚ :=
  if span ≤ 0 then 100
  else
    let base := MapRendererLayout.pow10_floor_log span
    MapRendererLayout.closest_step (span / 6)
      (MapRendererLayout.grid_multipliers.map (fun m => m * base))

/-- orthophoto_renderer.py `parse_scale_ratio` (lines 34-41): drops spaces,
takes `int(s.split(":")[1])` when a colon is present (index 1 exists then),
otherwise `int(s)`; 1000 on exception.  Unlike the layout variant there is
no `strip()` and, crucially, no `max(1, ...)` clamp. -/
def parse_scale_text (s : List Char) : ℤ :=
  let t := removeSpaces s
  if t.contains ':' then
    match pythonInt ((splitColon t).getD 1 []) with
    | some d => d
    | none => 1000
  else
    match pythonInt t with
    | some d => d
    | none => 1000

/-- orthophoto_renderer.py `apply_true_scale` (lines 44-56): same arithmetic
as the layout variant. -/
def apply_true_scale (b : Bounds) (denom : ℤ) (map_w_in map_h_in : ℚ) : Extent :=
  let cx := (b.minx + b.maxx) / 2
  let cy := (b.miny + b.maxy) / 2
  let real_w := map_w_in * (254 / 10000) * (denom : ℚ)
  let real_h := map_h_in * (254 / 10000) * (denom : ℚ)
  ⟨cx - real_w / 2, cx + real_w / 2, cy - real_h / 2, cy + real_h / 2⟩

/-- The view extent used by `render_orthophoto_png` (lines 199-200): the
true-scale window is applied and — unlike render_plot_map_layout — no
subsequent bounds check or expansion is performed before drawing. -/
def render_extent (b : Bounds) (denom : ℤ) (map_w_in map_h_in : ℚ) : Extent :=
  apply_true_scale b denom map_w_in map_h_in

/-- The observable state of the intermediate raster file consulted before
document embedding: `os.path.exists`, `os.path.getsize`, and whether the
image library can decode it. -/
structure RasterFile where
  present : Bool
  size : ℕ
  decodable : Bool

/-- The failure modes of the document-embedding exporters. -/
inductive ExportError where
  | renderIntegrity
  | imageOpenFailure
  deriving DecidableEq

/-- orthophoto_renderer.py `render_orthophoto_pdf_from_png` (lines 233-242):
`if not os.path.exists(png_path) or os.path.getsize(png_path) < 2000: raise`
— the RenderIntegrity guard; only then is the document written. -/
def render_orthophoto_pdf_from_png (png : RasterFile) : Except ExportError Unit :=
  if !png.present || png.size < 2000 then .error .renderIntegrity
  else .ok ()

end OrthophotoRenderer

namespace Pdf

open LandCheck OrthophotoRenderer

/-- src/app/utils/pdf.py `generate_plot_report_pdf` (lines 47-74), page-2
embedding step: `Image.open(map_image_path)` then `drawImage`.  There is no
existence or size check of its own — a missing or undecodable file makes
the image library raise (so no document is written), but any decodable
image is embedded regardless of its size. -/
def generate_plot_report_pdf (png : RasterFile) : Except ExportError Unit :=
  if png.present && png.decodable then .ok ()
  else .error .imageOpenFailure

/-- pdf.py page-1 text lines (lines 22-43) as payloads, in source order:
header, separator, plot id, timestamp, blank, the `Area (sqm):` line — an
area figure when report_data carries one, else the literal text "None" —
blank, the inside-features header, the per-category count lines (supplied
by the caller from the features dict), blank, the buffer-features header,
and the buffer count lines. -/
def generate_plot_report_page1 (area_m2 : Option ℚ)
    (inside_lines buffer_lines : List TextPayload) : List TextPayload :=
  [.plain, .plain, .plotLabel, .plain, .plain,
   (match area_m2 with | some a => TextPayload.area a | none => .plain),
   .plain, .plain] ++ inside_lines ++ [.plain, .plain] ++ buffer_lines

end Pdf

namespace PlotsRouter

open LandCheck

/-- src/app/routers/plots.py `get_plot_report` (lines 176-198): the report's
area field is `round(area, 2) if area else None`, where `area` is the
geodesic `ST_Area(geom::geography)` value supplied by the external spatial
store — a different computation from the planar `poly.area` the raster
layout displays.  Python truthiness sends both a missing and a zero store
value to None. -/
def get_plot_report_area (store_area : Option ℚ) : Option ℚ :=
  match store_area with
  | some a => if a = 0 then none else some (round2 a)
  | none => none

end PlotsRouter

namespace DwgExporter

open LandCheck

/-- src/app/utils/dwg_exporter.py `bearing_deg` (lines 13-16): textually
identical to back_computation.bearing_deg. -/
noncomputable def bearing_deg (p1 p2 : ℚ × ℚ) : ℝ :=
  mod360 (degrees (atan2 ((p2.1 : ℝ) - (p1.1 : ℝ)) ((p2.2 : ℝ) - (p1.2 : ℝ))) + 360)

/-- dwg_exporter.py `nice_grid_step` (lines 19-27): FIRST candidate keeping
`span / step <= 10`, falling back to `base` — a different heuristic from the
closest-to-span/6 rule of the two raster renderers. -/
def nice_grid_step (span : ℚ) : ℚ :=
  if span ≤ 0 then 100
  else
    let base := MapRendererLayout.pow10_floor_log span
    match MapRendererLayout.grid_multipliers.find? (fun m => span / (base * m) ≤ 10) with
    | some m => base * m
    | none => base

/-- dwg_exporter.py `add_layers` (lines 30-42): the fixed layer table
(name, color index) created in every exported document. -/
def add_layers : List (String × ℕ) :=
  [("PLOT", 1), ("BUILDINGS", 7), ("ROADS", 8), ("RIVERS", 5),
   ("GRID", 4), ("COORDS", 4), ("TEXT", 2)]

/-- A modelspace entity: geometry, layer, rotation, and for text entities
the payload the format string prints (see TextPayload). -/
inductive Entity where
  | line (p1 p2 : ℚ × ℚ) (layer : String)
  | text (pos : ℚ × ℚ) (height : ℚ) (layer : String) (rot : ℝ) (payload : TextPayload)

/-- The layer an entity was placed on. -/
def Entity.layer : Entity → String
  | .line _ _ l => l
  | .text _ _ l _ _ => l

/-- Whether an entity is a displayed area figure. -/
def Entity.isArea : Entity → Bool
  | .line _ _ _ => false
  | .text _ _ _ _ p => p.isArea

/-- The geometries a detected_features row can carry, as the exporter
dispatches on `geom_type`. -/
inductive Geom where
  | lineString (pts : List (ℚ × ℚ))
  | multiLineString (parts : List (List (ℚ × ℚ)))
  | polygon (ext : List (ℚ × ℚ))
  | multiPolygon (polys : List (List (ℚ × ℚ)))

/-- Consecutive-pair line segments on a layer (the
`for i in range(len(pts) - 1): msp.add_line(...)` pattern). -/
def segments (pts : List (ℚ × ℚ)) (layer : String) : List Entity :=
  (pts.zip pts.tail).map (fun e => .line e.1 e.2 layer)

/-- dwg_exporter.py `draw_lines` (lines 179-194): LineString and
MultiLineString geometries become consecutive segments on the given layer;
every other geometry type is skipped. -/
def draw_lines (geoms : List Geom) (layer : String) : List Entity :=
  (geoms.map (fun g =>
    match g with
    | .lineString pts => segments pts layer
    | .multiLineString parts => (parts.map (fun pts => segments pts layer)).flatten
    | _ => [])).flatten

/-- The buildings loop (lines 200-217): Polygon and MultiPolygon exterior
rings become segments on BUILDINGS; every other geometry type is skipped. -/
def draw_buildings (geoms : List Geom) : List Entity :=
  (geoms.map (fun g =>
    match g with
    | .polygon ext => segments ext "BUILDINGS"
    | .multiPolygon polys => (polys.map (fun ext => segments ext "BUILDINGS")).flatten
    | _ => [])).flatten

/-- The values visited by `x = a; while x <= b: ...; x += s`: a, a+s, ...
up to b (exact rational stepping). -/
def whileSteps (a b s : ℚ) : List ℚ :=
  if s ≤ 0 ∨ b < a then []
  else (List.range (⌊(b - a) / s⌋.toNat + 1)).map (fun (k : ℕ) => a + (k : ℚ) * s)

/-- dwg_exporter.py `draw_grid_and_coords` (lines 60-81): snap the bounds
outward to the grid spacing, then one GRID line plus one COORDS label per
easting step and one GRID line plus two COORDS labels per northing step. -/
def draw_grid_and_coords (b : Bounds) (spacing : ℚ) : List Entity :=
  let gxmin := ⌊b.minx / spacing⌋ * spacing
  let gxmax := ⌈b.maxx / spacing⌉ * spacing
  let gymin := ⌊b.miny / spacing⌋ * spacing
  let gymax := ⌈b.maxy / spacing⌉ * spacing
  let text_h : ℚ := 5/2
  ((whileSteps gxmin gxmax spacing).map (fun x =>
    [Entity.line (x, gymin) (x, gymax) "GRID",
     Entity.text (x, gymax + spacing * (1/4)) text_h "COORDS" 0
       (.coordLabel (round x))])).flatten ++
  ((whileSteps gymin gymax spacing).map (fun y =>
    [Entity.line (gxmin, y) (gxmax, y) "GRID",
     Entity.text (gxmin - spacing * (1/4), y) text_h "COORDS" 90
       (.coordLabel (round y)),
     Entity.text (gxmax + spacing * (1/4), y) text_h "COORDS" 90
       (.coordLabel (round y))])).flatten

/-- shapely `poly.bounds` for the exterior-ring coordinate list. -/
def ringBounds : List (ℚ × ℚ) → Bounds
  | [] => ⟨0, 0, 0, 0⟩
  | c :: rest =>
    ⟨(rest.map Prod.fst).foldl min c.1, (rest.map Prod.snd).foldl min c.2,
     (rest.map Prod.fst).foldl max c.1, (rest.map Prod.snd).foldl max c.2⟩

/-- shapely `poly.centroid` of a simple polygon ring (area-weighted
centroid by the shoelace formula; total rational division, a degenerate
ring yields (0,0)/0 = 0 like any other convention — the value is only a
text anchor). -/
def ringCentroid (coords : List (ℚ × ℚ)) : ℚ × ℚ :=
  let es := coords.zip coords.tail
  let a2 := (es.map (fun e => e.1.1 * e.2.2 - e.2.1 * e.1.2)).sum
  ((es.map (fun e => (e.1.1 + e.2.1) * (e.1.1 * e.2.2 - e.2.1 * e.1.2))).sum / (3 * a2),
   (es.map (fun e => (e.1.2 + e.2.2) * (e.1.1 * e.2.2 - e.2.1 * e.1.2))).sum / (3 * a2))

/-- A DXF document: layer table plus modelspace entities. -/
structure Doc where
  layers : List (String × ℕ)
  entities : List Entity

/-- src/app/utils/dwg_exporter.py `export_survey_plan_to_dxf` (lines
88-233), modelled from the point where the projected geometries are in
hand (reprojection is delegated to geopandas): layer table, boundary
segments on PLOT, one rotated bearings+distance text per edge on TEXT, a
PLOT-id label at the centroid on TEXT, roads and rivers via draw_lines,
building outlines, and finally the coordinate grid at the nice_grid_step
spacing of the larger bounds span. -/
noncomputable def export_survey_plan_to_dxf
    (coords : List (ℚ × ℚ)) (buildings roads rivers : List Geom) : Doc :=
  let boundary := segments coords "PLOT"
  let bearings := (coords.zip coords.tail).map (fun e =>
    Entity.text (((e.1.1 + e.2.1) / 2), ((e.1.2 + e.2.2) / 2)) 3 "TEXT"
      (MapRendererLayout.edge_text_rot e.1 e.2)
      (.bearingDistance (bearing_deg e.1 e.2) (pointDistance e.1 e.2)))
  let label := Entity.text (ringCentroid coords) 6 "TEXT" 0 .plotLabel
  let b := ringBounds coords
  let span := max (b.maxx - b.minx) (b.maxy - b.miny)
  let major := nice_grid_step span
  { layers := add_layers
    entities :=
      boundary ++ bearings ++ [label] ++
      draw_lines roads "ROADS" ++ draw_lines rivers "RIVERS" ++
      draw_buildings buildings ++
      draw_grid_and_coords b major }

end DwgExporter

/-- The square boundary (0,0)→(0,100)→(100,100)→(100,0)→(0,0) in planar
meters used by the spec's end-to-end testable property (§8). -/
def squareRing : List (ℚ × ℚ) := [(0, 0), (0, 100), (100, 100), (100, 0), (0, 0)]

/-! ## Theorems -/
open LandCheck



theorem mod360_add_int_mul (x : ℝ) (k : ℤ) : mod360 (x + 360 * k) = mod360 x := by
  unfold mod360
  have hdiv : (x + 360 * k) / 360 = x / 360 + k := by ring
  rw [hdiv, Int.floor_add_int]
  push_cast
  ring

theorem mod360_eq_self {x : ℝ} (h0 : 0 ≤ x) (h1 : x < 360) : mod360 x = x := by
  unfold mod360
  have hz : ⌊x / 360⌋ = 0 := by
    apply Int.floor_eq_zero_iff.mpr
    constructor
    · positivity
    · rw [div_lt_one (by norm_num : (0:ℝ) < 360)]
      linarith
  rw [hz]
  norm_num

theorem back_minus_forward (fb : ℝ) : mod360 |mod360 (fb + 180) - fb| = 180 := by
  set k : ℤ := ⌊(fb + 180) / 360⌋ with hk
  have hdiff : mod360 (fb + 180) - fb = 180 - 360 * k := by
    unfold mod360
    rw [← hk]
    ring
  rw [hdiff]
  rcases abs_cases ((180 : ℝ) - 360 * k) with ⟨habs, _⟩ | ⟨habs, _⟩
  · rw [habs]
    have h2 : (180 : ℝ) - 360 * k = 180 + 360 * ((-k : ℤ) : ℝ) := by push_cast; ring
    rw [h2, mod360_add_int_mul]
    exact mod360_eq_self (by norm_num) (by norm_num)
  · rw [habs]
    have h2 : -((180 : ℝ) - 360 * k) = 180 + 360 * ((k - 1 : ℤ) : ℝ) := by push_cast; ring
    rw [h2, mod360_add_int_mul]
    exact mod360_eq_self (by norm_num) (by norm_num)

/-- C1: for every edge, the back bearing stored in the traverse row is the
DMS rendering of (forward bearing + 180) mod 360, and the absolute
difference between back and forward bearing is 180 modulo 360, exactly. -/
theorem claim_C1 (stations : List String) (i : ℕ) (p1 p2 : ℚ × ℚ) :
    (BackComputation.mkRow stations i p1 p2).bb
        = BackComputation.deg_to_dms (BackComputation.edge_bb p1 p2)
      ∧ BackComputation.edge_bb p1 p2
        = mod360 (BackComputation.bearing_deg p1 p2 + 180)
      ∧ mod360 |BackComputation.edge_bb p1 p2 - BackComputation.bearing_deg p1 p2|
        = 180 :=
  ⟨rfl, rfl, back_minus_forward _⟩

theorem zip_tail_sum_sub {α : Type} (f : α → ℚ) :
    ∀ (l : List α) (h : l ≠ []),
      ((l.zip l.tail).map (fun e => f e.2 - f e.1)).sum
        = f (l.getLast h) - f (l.head h)
  | [a], _ => by simp
  | a :: b :: t, _ => by
    have ih := zip_tail_sum_sub f (b :: t) (List.cons_ne_nil _ _)
    simp only [List.tail_cons, List.zip_cons_cons, List.map_cons, List.sum_cons] at ih ⊢
    rw [List.getLast_cons (List.cons_ne_nil _ _), List.head_cons]
    rw [ih]
    simp only [List.head_cons]
    ring

/-- C2: for a closed ring the returned closure sums are exactly zero (the
per-edge deltas telescope), in particular within 1e-6 of zero. -/
theorem claim_C2 (coords : List (ℚ × ℚ)) (names : List String) (hne : coords ≠ [])
    (hcl : coords.head hne = coords.getLast hne) :
    (BackComputation.compute_back_computation coords names).2.1 = 0
    ∧ (BackComputation.compute_back_computation coords names).2.2 = 0
    ∧ |(BackComputation.compute_back_computation coords names).2.1| ≤ 1 / 1000000
    ∧ |(BackComputation.compute_back_computation coords names).2.2| ≤ 1 / 1000000 := by
  have hE : ((coords.zip coords.tail).map (fun e => e.2.1 - e.1.1)).sum = 0 := by
    rw [zip_tail_sum_sub Prod.fst coords hne, hcl, sub_self]
  have hN : ((coords.zip coords.tail).map (fun e => e.2.2 - e.1.2)).sum = 0 := by
    rw [zip_tail_sum_sub Prod.snd coords hne, hcl, sub_self]
  have h1 : (BackComputation.compute_back_computation coords names).2.1 = 0 := by
    simp only [BackComputation.compute_back_computation, BackComputation.edges]
    rw [hE]
    norm_num [round3]
  have h2 : (BackComputation.compute_back_computation coords names).2.2 = 0 := by
    simp only [BackComputation.compute_back_computation, BackComputation.edges]
    rw [hN]
    norm_num [round3]
  refine ⟨h1, h2, ?_, ?_⟩
  · rw [h1]; norm_num
  · rw [h2]; norm_num

/-- Witness for C2 at the §8 square ring. -/
theorem claim_C2_witness :
    (BackComputation.compute_back_computation squareRing []).2.1 = 0
    ∧ (BackComputation.compute_back_computation squareRing []).2.2 = 0
    ∧ |(BackComputation.compute_back_computation squareRing []).2.1| ≤ 1 / 1000000
    ∧ |(BackComputation.compute_back_computation squareRing []).2.2| ≤ 1 / 1000000 :=
  claim_C2 squareRing [] (by simp [squareRing]) (by simp [squareRing])

/-- C6: a closed ring of N coordinate pairs yields exactly N-1 traverse
rows, row i describing edge i (its ΔE is the rounded difference of the
eastings of vertices i+1 and i). -/
theorem claim_C6 (coords : List (ℚ × ℚ)) (names : List String) (hne : coords ≠ [])
    (_hcl : coords.head hne = coords.getLast hne) :
    (BackComputation.compute_back_computation coords names).1.length
        = coords.length - 1
    ∧ ∀ (i : ℕ) (hi : i + 1 < coords.length)
        (hr : i < (BackComputation.compute_back_computation coords names).1.length),
        ((BackComputation.compute_back_computation coords names).1.get ⟨i, hr⟩).dE
          = round3 ((coords.get ⟨i + 1, hi⟩).1
              - (coords.get ⟨i, Nat.lt_of_succ_lt hi⟩).1) := by
  constructor
  · simp only [BackComputation.compute_back_computation, BackComputation.edges]
    rw [List.length_mapIdx, List.length_zip, List.length_tail]
    exact min_eq_right (Nat.sub_le _ _)
  · intro i hi hr
    have hes : i < (coords.zip coords.tail).length := by
      simpa only [BackComputation.compute_back_computation, BackComputation.edges,
        List.length_mapIdx] using hr
    simp only [BackComputation.compute_back_computation, BackComputation.edges]
    rw [List.get_mapIdx _ _ _ hes]
    simp only [BackComputation.mkRow, List.get_eq_getElem, List.getElem_zip,
      List.getElem_tail]

/-- Witness for C6: the square ring has 5 coordinate pairs and 4 rows. -/
theorem claim_C6_witness :
    (BackComputation.compute_back_computation squareRing []).1.length = 4 := by
  have h := (claim_C6 squareRing [] (by simp [squareRing]) (by simp [squareRing])).1
  simpa [squareRing] using h

/-- C10: an empty station-name list is falsy in Python, so both the
traverse and the vertex annotator fall back to the default labels A..Z;
the wrap-around modulus is the default list length 26, never zero. -/
theorem claim_C10 :
    (∀ coords, BackComputation.compute_back_computation coords []
        = BackComputation.compute_back_computation coords BackComputation.default_stations)
    ∧ (∀ i, MapRendererLayout.annotate_label [] i
        = MapRendererLayout.annotate_label BackComputation.default_stations i)
    ∧ BackComputation.default_stations.length = 26 :=
  ⟨fun _ => rfl, fun _ => rfl, rfl⟩

/-- Counterexample to C3 as stated: the orthophoto implementation of the
scale parser has no positivity clamp, so "1:0" parses to 0, which is not a
positive integer. -/
theorem claim_C3_cex :
    OrthophotoRenderer.parse_scale_text ("1:0".toList) = 0
    ∧ ¬ (0 < OrthophotoRenderer.parse_scale_text ("1:0".toList)) := by
  constructor
  · decide
  · decide

/-- C3 amended: the layout implementation always returns a positive
integer and both implementations agree on the four documented examples;
only the layout implementation clamps, the orthophoto one can return
nonpositive values. -/
theorem claim_C3_amended :
    (∀ s : List Char, 1 ≤ MapRendererLayout.parse_scale_text s)
    ∧ MapRendererLayout.parse_scale_text ("1 : 1000".toList) = 1000
    ∧ MapRendererLayout.parse_scale_text ("1:1000".toList) = 1000
    ∧ MapRendererLayout.parse_scale_text ("1000".toList) = 1000
    ∧ MapRendererLayout.parse_scale_text ("garbage".toList) = 1000
    ∧ OrthophotoRenderer.parse_scale_text ("1 : 1000".toList) = 1000
    ∧ OrthophotoRenderer.parse_scale_text ("1:1000".toList) = 1000
    ∧ OrthophotoRenderer.parse_scale_text ("1000".toList) = 1000
    ∧ OrthophotoRenderer.parse_scale_text ("garbage".toList) = 1000 := by
  refine ⟨?_, by decide, by decide, by decide, by decide,
    by decide, by decide, by decide, by decide⟩
  intro s
  unfold MapRendererLayout.parse_scale_text
  dsimp only
  repeat' split
  all_goals first | exact le_max_left _ _ | norm_num

/-- Counterexample to C4 as stated: with the default A4 map window and
scale 1:1, a 1000 m square exceeds the ~0.17 m true-scale extent, and the
orthophoto renderer applies no expansion — the plot bounds are not covered
by its view extent, so the boundary is cropped. -/
theorem claim_C4_cex :
    ¬ (OrthophotoRenderer.render_extent ⟨0, 0, 1000, 1000⟩ 1 (827/125) (15197/2500)).covers
        ⟨0, 0, 1000, 1000⟩ := by
  unfold OrthophotoRenderer.render_extent OrthophotoRenderer.apply_true_scale Extent.covers
  norm_num

/-- C4 amended: the plain layout renderer (render_plot_map_layout) always
ends with a view extent covering the plot bounds — expanding by the 10%
margin whenever the true-scale window would crop them; the orthophoto
variant performs no such expansion. -/
theorem claim_C4_amended (b : Bounds) (denom : ℤ) (w h : ℚ)
    (hx : b.minx ≤ b.maxx) (hy : b.miny ≤ b.maxy) :
    (MapRendererLayout.render_extent b denom w h).covers b := by
  unfold MapRendererLayout.render_extent
  dsimp only
  split
  · refine ⟨?_, ?_, ?_, ?_⟩ <;> · dsimp only; nlinarith
  · next hfits =>
      push_neg at hfits
      obtain ⟨h1, h2, h3, h4⟩ := hfits
      exact ⟨h1, h2, h3, h4⟩

/-- Witness for C4 amended at the cropping input of the counterexample. -/
theorem claim_C4_amended_witness :
    (MapRendererLayout.render_extent ⟨0, 0, 1000, 1000⟩ 1 (827/125) (15197/2500)).covers
      ⟨0, 0, 1000, 1000⟩ :=
  claim_C4_amended ⟨0, 0, 1000, 1000⟩ 1 (827/125) (15197/2500) (by norm_num) (by norm_num)

theorem pow10_floor_log_1000 : MapRendererLayout.pow10_floor_log 1000 = 1000 := by
  unfold MapRendererLayout.pow10_floor_log
  rw [Int.log_ofNat]
  rw [@Nat.log_eq_of_pow_le_of_lt_pow 10 3 1000 (by norm_num) (by norm_num)]
  norm_num

theorem nice_layout_1000 : MapRendererLayout.nice_grid_step 1000 = 200 := by
  simp only [MapRendererLayout.nice_grid_step, pow10_floor_log_1000]
  norm_num [MapRendererLayout.closest_step, MapRendererLayout.grid_multipliers,
    List.foldl, abs, sup_eq_max, max_def]

theorem nice_dwg_1000 : DwgExporter.nice_grid_step 1000 = 100 := by
  simp only [DwgExporter.nice_grid_step, pow10_floor_log_1000]
  norm_num [MapRendererLayout.grid_multipliers, List.find?]

theorem mem_segments_isArea {pts : List (ℚ × ℚ)} {lay : String} :
    ∀ e ∈ DwgExporter.segments pts lay, DwgExporter.Entity.isArea e = false := by
  intro e he
  obtain ⟨x, _, rfl⟩ := List.mem_map.mp he
  rfl

theorem mem_draw_lines_isArea {geoms : List DwgExporter.Geom} {lay : String} :
    ∀ e ∈ DwgExporter.draw_lines geoms lay, DwgExporter.Entity.isArea e = false := by
  intro e he
  unfold DwgExporter.draw_lines at he
  simp only [List.mem_flatten, List.mem_map] at he
  obtain ⟨l, ⟨g, _, rfl⟩, hel⟩ := he
  cases g with
  | lineString pts => exact mem_segments_isArea e hel
  | multiLineString parts =>
      simp only [List.mem_flatten, List.mem_map] at hel
      obtain ⟨l2, ⟨pts, _, rfl⟩, hel2⟩ := hel
      exact mem_segments_isArea e hel2
  | polygon ext => simp at hel
  | multiPolygon polys => simp at hel

theorem mem_draw_buildings_isArea {geoms : List DwgExporter.Geom} :
    ∀ e ∈ DwgExporter.draw_buildings geoms, DwgExporter.Entity.isArea e = false := by
  intro e he
  unfold DwgExporter.draw_buildings at he
  simp only [List.mem_flatten, List.mem_map] at he
  obtain ⟨l, ⟨g, _, rfl⟩, hel⟩ := he
  cases g with
  | lineString pts => simp at hel
  | multiLineString parts => simp at hel
  | polygon ext => exact mem_segments_isArea e hel
  | multiPolygon polys =>
      simp only [List.mem_flatten, List.mem_map] at hel
      obtain ⟨l2, ⟨ext, _, rfl⟩, hel2⟩ := hel
      exact mem_segments_isArea e hel2

theorem mem_grid_isArea {b : Bounds} {s : ℚ} :
    ∀ e ∈ DwgExporter.draw_grid_and_coords b s, DwgExporter.Entity.isArea e = false := by
  intro e he
  unfold DwgExporter.draw_grid_and_coords at he
  simp only [List.mem_append, List.mem_flatten, List.mem_map] at he
  rcases he with ⟨l, ⟨x, _, rfl⟩, hel⟩ | ⟨l, ⟨y, _, rfl⟩, hel⟩
  · simp only [List.mem_cons, List.not_mem_nil, or_false] at hel
    rcases hel with rfl | rfl <;> rfl
  · simp only [List.mem_cons, List.not_mem_nil, or_false] at hel
    rcases hel with rfl | rfl | rfl <;> rfl

theorem dxf_no_area_text (coords : List (ℚ × ℚ))
    (buildings roads rivers : List DwgExporter.Geom) :
    ∀ e ∈ (DwgExporter.export_survey_plan_to_dxf coords buildings roads rivers).entities,
      DwgExporter.Entity.isArea e = false := by
  intro e he
  have hent : (DwgExporter.export_survey_plan_to_dxf coords buildings roads rivers).entities
      = DwgExporter.segments coords "PLOT"
        ++ (coords.zip coords.tail).map (fun e =>
              DwgExporter.Entity.text (((e.1.1 + e.2.1) / 2), ((e.1.2 + e.2.2) / 2)) 3 "TEXT"
                (MapRendererLayout.edge_text_rot e.1 e.2)
                (TextPayload.bearingDistance (DwgExporter.bearing_deg e.1 e.2)
                  (pointDistance e.1 e.2)))
        ++ [DwgExporter.Entity.text (DwgExporter.ringCentroid coords) 6 "TEXT" 0
              TextPayload.plotLabel]
        ++ DwgExporter.draw_lines roads "ROADS"
        ++ DwgExporter.draw_lines rivers "RIVERS"
        ++ DwgExporter.draw_buildings buildings
        ++ DwgExporter.draw_grid_and_coords (DwgExporter.ringBounds coords)
            (DwgExporter.nice_grid_step
              (max ((DwgExporter.ringBounds coords).maxx - (DwgExporter.ringBounds coords).minx)
                ((DwgExporter.ringBounds coords).maxy - (DwgExporter.ringBounds coords).miny))) :=
    rfl
  rw [hent] at he
  simp only [List.mem_append] at he
  rcases he with ((((((he | he) | he) | he) | he) | he) | he)
  · exact mem_segments_isArea e he
  · obtain ⟨x, _, rfl⟩ := List.mem_map.mp he
    rfl
  · simp only [List.mem_cons, List.not_mem_nil, or_false] at he
    subst he
    rfl
  · exact mem_draw_lines_isArea e he
  · exact mem_draw_lines_isArea e he
  · exact mem_draw_buildings_isArea e he
  · exact mem_grid_isArea e he

/-- Counterexample to C5 as stated, at the §8 square plot: (i) the grid
spacing disagrees across formats — at a 1000 m span the raster layout picks
the candidate closest to span/6 (200 m) while the CAD exporter picks the
first candidate with at most 10 lines (100 m); (ii) the area value
disagrees across formats — the CAD export contains no area text entity at
all, while the raster layout's title block does display one. -/
theorem claim_C5_cex :
    MapRendererLayout.nice_grid_step 1000 ≠ DwgExporter.nice_grid_step 1000
    ∧ (DwgExporter.export_survey_plan_to_dxf squareRing [] [] []).entities.all
        (fun e => !DwgExporter.Entity.isArea e) = true
    ∧ TextPayload.area (ringArea squareRing)
        ∈ MapRendererLayout.render_title_block squareRing := by
  refine ⟨?_, ?_, ?_⟩
  · rw [nice_layout_1000, nice_dwg_1000]
    norm_num
  · rw [List.all_eq_true]
    intro e he
    have h := dxf_no_area_text squareRing [] [] [] e he
    simp [h]
  · simp [MapRendererLayout.render_title_block, MapRendererLayout.draw_title_block]

/-- C5 amended: the three exporters share one per-edge bearing formula, and
the two raster variants share one grid heuristic; the other two conjuncts
of the original claim fail.  Grid spacing: the CAD heuristic differs, 200 m
versus 100 m at a 1000 m span.  Area: no area value is common to the three
formats — the CAD file contains no area text at all, the raster layout's
title block always displays the planar area of the projected ring, and the
paginated report's page 1 displays the externally supplied geodesic store
value rounded to two decimals, a different computation. -/
theorem claim_C5_amended :
    (∀ p1 p2 : ℚ × ℚ,
        MapRendererLayout.calculate_bearing_deg p1 p2 = BackComputation.bearing_deg p1 p2
        ∧ DwgExporter.bearing_deg p1 p2 = BackComputation.bearing_deg p1 p2)
    ∧ (∀ span : ℚ,
        OrthophotoRenderer.nice_grid_step span = MapRendererLayout.nice_grid_step span)
    ∧ MapRendererLayout.nice_grid_step 1000 = 200
    ∧ DwgExporter.nice_grid_step 1000 = 100
    ∧ (∀ (coords : List (ℚ × ℚ)) (buildings roads rivers : List DwgExporter.Geom),
        ∀ e ∈ (DwgExporter.export_survey_plan_to_dxf coords buildings roads rivers).entities,
          DwgExporter.Entity.isArea e = false)
    ∧ (∀ coords : List (ℚ × ℚ),
        TextPayload.area (ringArea coords) ∈ MapRendererLayout.render_title_block coords)
    ∧ (∀ a : ℚ, a ≠ 0 →
        TextPayload.area (round2 a)
          ∈ Pdf.generate_plot_report_page1 (PlotsRouter.get_plot_report_area (some a)) [] []) := by
  refine ⟨fun _ _ => ⟨rfl, rfl⟩, fun _ => rfl, nice_layout_1000, nice_dwg_1000,
    dxf_no_area_text, ?_, ?_⟩
  · intro coords
    simp [MapRendererLayout.render_title_block, MapRendererLayout.draw_title_block]
  · intro a ha
    have harea : PlotsRouter.get_plot_report_area (some a) = some (round2 a) := by
      simp only [PlotsRouter.get_plot_report_area]
      rw [if_neg ha]
    rw [harea]
    simp [Pdf.generate_plot_report_page1]

/-- Witness for C5 amended: the report's page 1 shows the rounded store
area for the nonzero store value 100. -/
theorem claim_C5_amended_witness :
    TextPayload.area (round2 100)
      ∈ Pdf.generate_plot_report_page1 (PlotsRouter.get_plot_report_area (some 100)) [] [] :=
  claim_C5_amended.2.2.2.2.2.2 100 (by norm_num)

theorem edge_text_angle_neg_x :
    MapRendererLayout.edge_text_angle (0, 0) (-1, 0) = 180 := by
  have key : ∀ z : ℂ, z = -1 → degrees z.arg = 180 := by
    intro z hz
    rw [hz, Complex.arg_neg_one]
    unfold degrees
    field_simp
  unfold MapRendererLayout.edge_text_angle atan2
  exact key _ (by apply Complex.ext <;> norm_num)

/-- Counterexample to C7 as stated: for the due-west edge (0,0)→(-1,0) the
text angle is 180°, the normalization adds 180, and the applied rotation is
360°, outside (-90°, 90°]. -/
theorem claim_C7_cex :
    MapRendererLayout.edge_text_rot (0, 0) (-1, 0) = 360
    ∧ ¬ (-90 < MapRendererLayout.edge_text_rot (0, 0) (-1, 0)
          ∧ MapRendererLayout.edge_text_rot (0, 0) (-1, 0) ≤ 90) := by
  have hrot : MapRendererLayout.edge_text_rot (0, 0) (-1, 0) = 360 := by
    unfold MapRendererLayout.edge_text_rot
    rw [edge_text_angle_neg_x]
    rw [if_pos (by norm_num)]
    norm_num
  exact ⟨hrot, by rw [hrot]; norm_num⟩

theorem degrees_arg_bounds (z : ℂ) : -180 < degrees z.arg ∧ degrees z.arg ≤ 180 := by
  have hpi : (0:ℝ) < 180 / Real.pi := by positivity
  have hkey : Real.pi * (180 / Real.pi) = 180 := by field_simp
  have hkey2 : -Real.pi * (180 / Real.pi) = -180 := by
    field_simp
    ring
  constructor
  · have h := mul_lt_mul_of_pos_right (Complex.neg_pi_lt_arg z) hpi
    unfold degrees
    linarith
  · have h := mul_le_mul_of_nonneg_right (Complex.arg_le_pi z) (le_of_lt hpi)
    unfold degrees
    linarith

/-- C7 amended: the applied annotation rotation always lies in
[-90°, 90°] ∪ (270°, 360°] — equivalent modulo 360 to an angle within 90°
of horizontal (never upside-down text), but not literally inside
(-90°, 90°]: a due-south edge keeps rotation exactly -90°, and edges with
raw angle in (90°, 180°] get rotations in (270°, 360°]. -/
theorem claim_C7_amended (p1 p2 : ℚ × ℚ) :
    (-90 ≤ MapRendererLayout.edge_text_rot p1 p2
        ∧ MapRendererLayout.edge_text_rot p1 p2 ≤ 90)
    ∨ (270 < MapRendererLayout.edge_text_rot p1 p2
        ∧ MapRendererLayout.edge_text_rot p1 p2 ≤ 360) := by
  have hb : -180 < MapRendererLayout.edge_text_angle p1 p2
      ∧ MapRendererLayout.edge_text_angle p1 p2 ≤ 180 := by
    unfold MapRendererLayout.edge_text_angle atan2
    exact degrees_arg_bounds _
  obtain ⟨hlo, hhi⟩ := hb
  unfold MapRendererLayout.edge_text_rot
  dsimp only
  split
  · next hcond =>
      rcases hcond with hlt | hgt
      · left
        constructor <;> linarith
      · right
        constructor <;> linarith
  · next hcond =>
      push_neg at hcond
      left
      exact ⟨hcond.1, hcond.2⟩

/-- Counterexample to C8 as stated: a present, decodable raster of 100
bytes (well under the 2000-byte integrity threshold) is embedded by the
plot-report PDF exporter without any RenderIntegrity failure — the check
exists only in the orthophoto PDF path. -/
theorem claim_C8_cex :
    (100 : ℕ) < 2000
    ∧ Pdf.generate_plot_report_pdf ⟨true, 100, true⟩ = Except.ok ()
    ∧ Pdf.generate_plot_report_pdf ⟨true, 100, true⟩
        ≠ Except.error OrthophotoRenderer.ExportError.renderIntegrity := by
  refine ⟨by norm_num, rfl, ?_⟩
  intro h
  simp [Pdf.generate_plot_report_pdf] at h

/-- C8 amended: only the orthophoto PDF exporter guards document embedding:
whenever the intermediate raster is missing or smaller than 2000 bytes it
fails with the RenderIntegrity error and writes no document; the
plot-report exporter embeds any decodable raster with no size check. -/
theorem claim_C8_amended (png : OrthophotoRenderer.RasterFile)
    (h : png.present = false ∨ png.size < 2000) :
    OrthophotoRenderer.render_orthophoto_pdf_from_png png
      = Except.error OrthophotoRenderer.ExportError.renderIntegrity := by
  unfold OrthophotoRenderer.render_orthophoto_pdf_from_png
  have hc : (!png.present || decide (png.size < 2000)) = true := by
    rcases h with h | h
    · simp [h]
    · simp [h]
  rw [if_pos hc]

/-- Witness for C8 amended: a missing raster file. -/
theorem claim_C8_amended_witness :
    OrthophotoRenderer.render_orthophoto_pdf_from_png ⟨false, 0, false⟩
      = Except.error OrthophotoRenderer.ExportError.renderIntegrity :=
  claim_C8_amended ⟨false, 0, false⟩ (Or.inl rfl)

theorem foldl_min_le_foldl_max (l : List ℚ) :
    ∀ a b : ℚ, a ≤ b → l.foldl min a ≤ l.foldl max b := by
  induction l with
  | nil => intro a b h; simpa using h
  | cons x xs ih =>
    intro a b h
    exact ih _ _ (le_trans (min_le_left a x) (le_trans h (le_max_left b x)))

theorem ringBounds_x_le {coords : List (ℚ × ℚ)} (h : coords ≠ []) :
    (DwgExporter.ringBounds coords).minx ≤ (DwgExporter.ringBounds coords).maxx := by
  cases coords with
  | nil => exact absurd rfl h
  | cons c rest => exact foldl_min_le_foldl_max _ _ _ le_rfl

theorem ringBounds_y_le {coords : List (ℚ × ℚ)} (h : coords ≠ []) :
    (DwgExporter.ringBounds coords).miny ≤ (DwgExporter.ringBounds coords).maxy := by
  cases coords with
  | nil => exact absurd rfl h
  | cons c rest => exact foldl_min_le_foldl_max _ _ _ le_rfl

theorem grid_multipliers_pos : ∀ m ∈ MapRendererLayout.grid_multipliers, (0 : ℚ) < m := by
  intro m hm
  simp [MapRendererLayout.grid_multipliers] at hm
  rcases hm with rfl | rfl | rfl | rfl | rfl | rfl <;> norm_num

theorem nice_dwg_pos (span : ℚ) : 0 < DwgExporter.nice_grid_step span := by
  unfold DwgExporter.nice_grid_step
  split
  · norm_num
  · dsimp only
    have hbase : (0 : ℚ) < MapRendererLayout.pow10_floor_log span := by
      unfold MapRendererLayout.pow10_floor_log
      positivity
    split
    · next m hm =>
        exact mul_pos hbase (grid_multipliers_pos m (List.mem_of_find?_eq_some hm))
    · exact hbase

theorem grid_snap_le {lo hi s : ℚ} (hs : 0 < s) (h : lo ≤ hi) :
    (⌊lo / s⌋ : ℚ) * s ≤ (⌈hi / s⌉ : ℚ) * s := by
  have h1 : ((⌊lo / s⌋ : ℤ) : ℚ) ≤ lo / s := Int.floor_le _
  have h2 : hi / s ≤ ((⌈hi / s⌉ : ℤ) : ℚ) := Int.le_ceil _
  have h3 : lo / s ≤ hi / s := by gcongr
  exact mul_le_mul_of_nonneg_right (by linarith) hs.le

theorem self_mem_whileSteps {a b s : ℚ} (hs : 0 < s) (hab : a ≤ b) :
    a ∈ DwgExporter.whileSteps a b s := by
  unfold DwgExporter.whileSteps
  rw [if_neg (by push_neg; exact ⟨hs, hab⟩)]
  refine List.mem_map.mpr ⟨0, ?_, by push_cast; ring⟩
  exact List.mem_range.mpr (Nat.succ_pos _)

theorem mem_map_layer {α : Type} {l : List α} {f : α → DwgExporter.Entity} {lay : String}
    (hf : ∀ x, DwgExporter.Entity.layer (f x) = lay) :
    ∀ e ∈ l.map f, DwgExporter.Entity.layer e = lay := by
  intro e he
  obtain ⟨x, _, rfl⟩ := List.mem_map.mp he
  exact hf x

theorem mem_segments_layer {pts : List (ℚ × ℚ)} {lay : String} :
    ∀ e ∈ DwgExporter.segments pts lay, DwgExporter.Entity.layer e = lay :=
  mem_map_layer (fun _ => rfl)

theorem mem_grid_layer {b : Bounds} {s : ℚ} :
    ∀ e ∈ DwgExporter.draw_grid_and_coords b s,
      DwgExporter.Entity.layer e = "GRID" ∨ DwgExporter.Entity.layer e = "COORDS" := by
  intro e he
  unfold DwgExporter.draw_grid_and_coords at he
  simp only [List.mem_append, List.mem_flatten, List.mem_map] at he
  rcases he with ⟨l, ⟨x, _, rfl⟩, hel⟩ | ⟨l, ⟨y, _, rfl⟩, hel⟩
  · simp only [List.mem_cons, List.not_mem_nil, or_false] at hel
    rcases hel with rfl | rfl
    · exact Or.inl rfl
    · exact Or.inr rfl
  · simp only [List.mem_cons, List.not_mem_nil, or_false] at hel
    rcases hel with rfl | rfl | rfl
    · exact Or.inl rfl
    · exact Or.inr rfl
    · exact Or.inr rfl

theorem grid_has_grid_line {b : Bounds} {s : ℚ} (hs : 0 < s) (hx : b.minx ≤ b.maxx) :
    ∃ e ∈ DwgExporter.draw_grid_and_coords b s, DwgExporter.Entity.layer e = "GRID" := by
  unfold DwgExporter.draw_grid_and_coords
  simp only []
  refine ⟨DwgExporter.Entity.line ((⌊b.minx / s⌋ : ℚ) * s, (⌊b.miny / s⌋ : ℚ) * s)
      ((⌊b.minx / s⌋ : ℚ) * s, (⌈b.maxy / s⌉ : ℚ) * s) "GRID", ?_, rfl⟩
  apply List.mem_append_left
  refine List.mem_flatten.mpr ⟨_, List.mem_map.mpr
    ⟨(⌊b.minx / s⌋ : ℚ) * s, self_mem_whileSteps hs (grid_snap_le hs hx), rfl⟩, ?_⟩
  exact List.mem_cons_self _ _

theorem grid_has_coords_text {b : Bounds} {s : ℚ} (hs : 0 < s) (hx : b.minx ≤ b.maxx) :
    ∃ e ∈ DwgExporter.draw_grid_and_coords b s, DwgExporter.Entity.layer e = "COORDS" := by
  unfold DwgExporter.draw_grid_and_coords
  simp only []
  refine ⟨DwgExporter.Entity.text
      ((⌊b.minx / s⌋ : ℚ) * s, (⌈b.maxy / s⌉ : ℚ) * s + s * (1/4)) (5/2) "COORDS" 0
      (TextPayload.coordLabel (round ((⌊b.minx / s⌋ : ℚ) * s))), ?_, rfl⟩
  apply List.mem_append_left
  refine List.mem_flatten.mpr ⟨_, List.mem_map.mpr
    ⟨(⌊b.minx / s⌋ : ℚ) * s, self_mem_whileSteps hs (grid_snap_le hs hx), rfl⟩, ?_⟩
  exact List.mem_cons_of_mem _ (List.mem_cons_self _ _)

/-- C9: with zero detected features the CAD export still contains the
PLOT/GRID/COORDS/TEXT layers, its PLOT-layer entities are exactly the N-1
boundary segments, grid and coordinate entities are present, and no entity
sits on the BUILDINGS, ROADS or RIVERS layers. -/
theorem claim_C9 (coords : List (ℚ × ℚ)) (hne : coords ≠ []) :
    ("PLOT" ∈ (DwgExporter.export_survey_plan_to_dxf coords [] [] []).layers.map Prod.fst
      ∧ "GRID" ∈ (DwgExporter.export_survey_plan_to_dxf coords [] [] []).layers.map Prod.fst
      ∧ "COORDS" ∈ (DwgExporter.export_survey_plan_to_dxf coords [] [] []).layers.map Prod.fst
      ∧ "TEXT" ∈ (DwgExporter.export_survey_plan_to_dxf coords [] [] []).layers.map Prod.fst)
    ∧ (DwgExporter.export_survey_plan_to_dxf coords [] [] []).entities.filter
        (fun e => DwgExporter.Entity.layer e = "PLOT") = DwgExporter.segments coords "PLOT"
    ∧ (DwgExporter.segments coords "PLOT").length = coords.length - 1
    ∧ (∃ e ∈ (DwgExporter.export_survey_plan_to_dxf coords [] [] []).entities,
        DwgExporter.Entity.layer e = "GRID")
    ∧ (∃ e ∈ (DwgExporter.export_survey_plan_to_dxf coords [] [] []).entities,
        DwgExporter.Entity.layer e = "COORDS")
    ∧ (∀ e ∈ (DwgExporter.export_survey_plan_to_dxf coords [] [] []).entities,
        DwgExporter.Entity.layer e ≠ "BUILDINGS"
        ∧ DwgExporter.Entity.layer e ≠ "ROADS"
        ∧ DwgExporter.Entity.layer e ≠ "RIVERS") := by
  have hent : (DwgExporter.export_survey_plan_to_dxf coords [] [] []).entities
      = DwgExporter.segments coords "PLOT"
        ++ (coords.zip coords.tail).map (fun e =>
              DwgExporter.Entity.text (((e.1.1 + e.2.1) / 2), ((e.1.2 + e.2.2) / 2)) 3 "TEXT"
                (MapRendererLayout.edge_text_rot e.1 e.2)
                (TextPayload.bearingDistance (DwgExporter.bearing_deg e.1 e.2)
                  (pointDistance e.1 e.2)))
        ++ [DwgExporter.Entity.text (DwgExporter.ringCentroid coords) 6 "TEXT" 0
              TextPayload.plotLabel]
        ++ DwgExporter.draw_grid_and_coords (DwgExporter.ringBounds coords)
            (DwgExporter.nice_grid_step
              (max ((DwgExporter.ringBounds coords).maxx - (DwgExporter.ringBounds coords).minx)
                ((DwgExporter.ringBounds coords).maxy - (DwgExporter.ringBounds coords).miny))) := by
    unfold DwgExporter.export_survey_plan_to_dxf
    simp only [DwgExporter.draw_lines, DwgExporter.draw_buildings, List.map_nil,
      List.flatten_nil, List.append_nil, List.nil_append]
  have hbear : ∀ e ∈ (coords.zip coords.tail).map (fun e =>
      DwgExporter.Entity.text (((e.1.1 + e.2.1) / 2), ((e.1.2 + e.2.2) / 2)) 3 "TEXT"
        (MapRendererLayout.edge_text_rot e.1 e.2)
        (TextPayload.bearingDistance (DwgExporter.bearing_deg e.1 e.2)
          (pointDistance e.1 e.2))),
      DwgExporter.Entity.layer e = "TEXT" := mem_map_layer (fun _ => rfl)
  have hspos := nice_dwg_pos
    (max ((DwgExporter.ringBounds coords).maxx - (DwgExporter.ringBounds coords).minx)
      ((DwgExporter.ringBounds coords).maxy - (DwgExporter.ringBounds coords).miny))
  have hxle := ringBounds_x_le hne
  refine ⟨⟨?_, ?_, ?_, ?_⟩, ?_, ?_, ?_, ?_, ?_⟩
  · simp [DwgExporter.export_survey_plan_to_dxf, DwgExporter.add_layers]
  · simp [DwgExporter.export_survey_plan_to_dxf, DwgExporter.add_layers]
  · simp [DwgExporter.export_survey_plan_to_dxf, DwgExporter.add_layers]
  · simp [DwgExporter.export_survey_plan_to_dxf, DwgExporter.add_layers]
  · rw [hent]
    rw [List.filter_append, List.filter_append, List.filter_append]
    rw [List.filter_eq_self.mpr (fun e he => by
      simp [mem_segments_layer e he])]
    rw [List.filter_eq_nil_iff.mpr (fun e he => by
      simp [hbear e he])]
    rw [List.filter_eq_nil_iff.mpr (fun e he => by
      simp only [List.mem_cons, List.not_mem_nil, or_false] at he
      have hl : DwgExporter.Entity.layer e = "TEXT" := by rw [he]; rfl
      simp [hl])]
    rw [List.filter_eq_nil_iff.mpr (fun e he => by
      rcases mem_grid_layer e he with h | h <;> simp [h])]
    simp
  · unfold DwgExporter.segments
    rw [List.length_map, List.length_zip, List.length_tail]
    exact min_eq_right (Nat.sub_le _ _)
  · obtain ⟨e, hmem, hl⟩ := grid_has_grid_line hspos hxle
    refine ⟨e, ?_, hl⟩
    rw [hent]
    exact List.mem_append_right _ hmem
  · obtain ⟨e, hmem, hl⟩ := grid_has_coords_text hspos hxle
    refine ⟨e, ?_, hl⟩
    rw [hent]
    exact List.mem_append_right _ hmem
  · intro e he
    rw [hent] at he
    simp only [List.mem_append] at he
    rcases he with ((he | he) | he) | he
    · have := mem_segments_layer e he
      rw [this]
      refine ⟨by decide, by decide, by decide⟩
    · have := hbear e he
      rw [this]
      refine ⟨by decide, by decide, by decide⟩
    · simp only [List.mem_cons, List.not_mem_nil, or_false] at he
      have hl : DwgExporter.Entity.layer e = "TEXT" := by rw [he]; rfl
      rw [hl]
      refine ⟨by decide, by decide, by decide⟩
    · rcases mem_grid_layer e he with h | h <;>
        · rw [h]
          refine ⟨by decide, by decide, by decide⟩

/-- Witness for C9 at the §8 square ring. -/
theorem claim_C9_witness :
    (DwgExporter.segments squareRing "PLOT").length = squareRing.length - 1
    ∧ (∀ e ∈ (DwgExporter.export_survey_plan_to_dxf squareRing [] [] []).entities,
        DwgExporter.Entity.layer e ≠ "BUILDINGS"
        ∧ DwgExporter.Entity.layer e ≠ "ROADS"
        ∧ DwgExporter.Entity.layer e ≠ "RIVERS") := by
  have h := claim_C9 squareRing (by simp [squareRing])
  exact ⟨h.2.2.1, h.2.2.2.2.2⟩
